import Mathlib

/-!
Verification of ludwig/models/modules/fully_connected_modules.py.

The module builds a stack of fully-connected layers.  We shallowly embed the
construction-time behaviour of `fc_layer` and `FCStack.__init__` /
`FCStack.compute_output_shape`: Python dictionaries become association lists
over a small dynamic value type, exceptions (KeyError, AttributeError,
TypeError) become `Except String`, and the framework layer objects
(Dense, BatchNormalization, LayerNormalization, Activation, Dropout) become
constructors of an inductive type recording their construction arguments.
-/

/-- Dynamic values stored in a per-layer configuration dictionary.
Only the shapes of value the module actually stores or reads are modelled:
Python None, strings, integers and floating rates (as rationals). -/
inductive Value where
  | vNone : Value
  | vStr : String → Value
  | vNat : Nat → Value
  | vRat : ℚ → Value
deriving DecidableEq, Repr

/-- Python truthiness for the modelled values, as used by `if layer['norm']:`. -/
def Value.truthy : Value → Bool
  | Value.vNone => false
  | Value.vStr s => !(s = "")
  | Value.vNat n => !(n = 0)
  | Value.vRat q => !(q = 0)

/-- Numeric view of a value, as used by the comparison
`layer['dropout_rate'] > 0`; non-numeric values have none (Python TypeError). -/
def Value.asRat : Value → Option ℚ
  | Value.vNat n => some ((n : ℚ))
  | Value.vRat q => some q
  | _ => none

/-- A per-layer configuration: a Python dict modelled as an ordered
association list (insertion order, first binding wins on lookup;
the module only ever inserts fresh keys). -/
abbrev LayerConfig := List (String × Value)

/-- Dictionary lookup `layer[k]`, none models a KeyError. -/
def LayerConfig.lookup : LayerConfig → String → Option Value
  | [], _ => none
  | p :: rest, k => if p.1 = k then some p.2 else LayerConfig.lookup rest k

/-- Dictionary membership `k in layer`. -/
def LayerConfig.hasKey (c : LayerConfig) (k : String) : Bool :=
  (c.lookup k).isSome

/-- Dictionary assignment `layer[k] = v`: replace in place if the key is
present, otherwise append (Python dicts preserve insertion order). -/
def LayerConfig.setItem : LayerConfig → String → Value → LayerConfig
  | [], k, v => [(k, v)]
  | p :: rest, k, v =>
    if p.1 = k then (k, v) :: rest else p :: LayerConfig.setItem rest k v

/-- One step of the default fill in `FCStack.__init__`:
`if k not in layer: layer[k] = default`. -/
def fillDefault (c : LayerConfig) (k : String) (v : Value) : LayerConfig :=
  if c.hasKey k then c else c.setItem k v

/-- The stack-level defaults of `FCStack.__init__` that its body reads
(parameters the constructor body never uses, such as default_use_bias and the
bias initializer and regularizer defaults, are not modelled). -/
structure StackDefaults where
  default_fc_size : Nat
  default_activation : String
  default_norm : Option String
  default_dropout_rate : ℚ
  default_weights_initializer : String
  default_weights_regularizer : Option String
deriving DecidableEq, Repr

/-- The Python default arguments of `FCStack.__init__`. -/
def defaultStackDefaults : StackDefaults :=
  ⟨256, "relu", none, 0, "glorot_uniform", none⟩

/-- Conversion of an optional string default (Python None or a name)
into a stored dictionary value. -/
def optValue : Option String → Value
  | none => Value.vNone
  | some s => Value.vStr s

/-- The default-fill loop body of `FCStack.__init__` for one configuration.
Note the sixth key is written with a trailing space, exactly as in the source:
`if 'weights_regularizer ' not in layer: layer['weights_regularizer '] = ...`. -/
def fillLayer (d : StackDefaults) (c : LayerConfig) : LayerConfig :=
  let c1 := fillDefault c "fc_size" (Value.vNat d.default_fc_size)
  let c2 := fillDefault c1 "activation" (Value.vStr d.default_activation)
  let c3 := fillDefault c2 "norm" (optValue d.default_norm)
  let c4 := fillDefault c3 "dropout_rate" (Value.vRat d.default_dropout_rate)
  let c5 := fillDefault c4 "weights_initializer"
      (Value.vStr d.default_weights_initializer)
  fillDefault c5 "weights_regularizer " (optValue d.default_weights_regularizer)

/-- The framework sub-layer objects appended to `self.stack`, recording the
construction arguments the source passes. -/
inductive FCUnit where
  | Dense (fc_size kernel_initializer kernel_regularizer : Value)
  | BatchNormalization
  | LayerNormalization
  | Activation (a : Value)
  | Dropout (rate : Value)
deriving DecidableEq, Repr

/-- Dictionary read raising KeyError when the key is absent. -/
def getItem (c : LayerConfig) (k : String) : Except String Value :=
  match c.lookup k with
  | some v => Except.ok v
  | none => Except.error ("KeyError: " ++ k)

/-- The loop body of the stack-building loop of `FCStack.__init__` for one
(already default-filled) configuration.  Reads happen in source order:
`fc_size`, `weights_initializer`, `weights_regularizer` (no trailing space)
for Dense; then `norm`; then `activation`; then the comparison
`layer['dropout_rate'] > 0` (TypeError on a non-numeric value). -/
def buildLayerGroup (c : LayerConfig) : Except String (List FCUnit) :=
  match getItem c "fc_size" with
  | Except.error e => Except.error e
  | Except.ok fcSize =>
  match getItem c "weights_initializer" with
  | Except.error e => Except.error e
  | Except.ok wInit =>
  match getItem c "weights_regularizer" with
  | Except.error e => Except.error e
  | Except.ok wReg =>
  match getItem c "norm" with
  | Except.error e => Except.error e
  | Except.ok normV =>
  match getItem c "activation" with
  | Except.error e => Except.error e
  | Except.ok actV =>
  match getItem c "dropout_rate" with
  | Except.error e => Except.error e
  | Except.ok dropV =>
  match Value.asRat dropV with
  | none => Except.error "TypeError: dropout_rate is not comparable with 0"
  | some dropRate =>
    let normUnits : List FCUnit :=
      if Value.truthy normV then
        (if normV = Value.vStr "batch" then [FCUnit.BatchNormalization] else [])
          ++ (if normV = Value.vStr "layer" then [FCUnit.LayerNormalization] else [])
      else []
    let dropUnits : List FCUnit :=
      if 0 < dropRate then [FCUnit.Dropout dropV] else []
    Except.ok ([FCUnit.Dense fcSize wInit wReg] ++ normUnits
      ++ [FCUnit.Activation actV] ++ dropUnits)

/-- The stack-building loop over all configurations, appending each layer's
units in order; the first raised exception aborts construction. -/
def buildStack : List LayerConfig → Except String (List FCUnit)
  | [] => Except.ok []
  | c :: rest =>
    match buildLayerGroup c with
    | Except.error e => Except.error e
    | Except.ok g =>
      match buildStack rest with
      | Except.error e => Except.error e
      | Except.ok gs => Except.ok (g ++ gs)

/-- `FCStack.__init__`: synthesize `num_layers` empty configurations when
`layers is None`, default-fill each configuration in place, then build the
flat `self.stack`.  Returns the filled `self.layers` and `self.stack`, or the
first exception raised. -/
def fcStackInit (layers : Option (List LayerConfig)) (num_layers : Nat)
    (d : StackDefaults) : Except String (List LayerConfig × List FCUnit) :=
  let ls : List LayerConfig :=
    match layers with
    | none => List.replicate num_layers ([] : LayerConfig)
    | some l => l
  let filled := ls.map (fillLayer d)
  match buildStack filled with
  | Except.error e => Except.error e
  | Except.ok st => Except.ok (filled, st)

/-- `FCStack.compute_output_shape`: delegate to the last unit of the flat
stack when non-empty, identity when empty.  The per-unit
`compute_output_shape` is framework-owned, so it is a parameter. -/
def compute_output_shape {α : Type} (stack : List FCUnit)
    (unitShape : FCUnit → α → α) (input_shape : α) : α :=
  match stack.getLast? with
  | some u => unitShape u input_shape
  | none => input_shape

/-- A weight variable as created by `tf.get_variable('weights', ...)`:
its shape, the name of the initializer chosen (none defers to the
framework built-in default), and the optional regularizer attached. -/
structure WeightsVar where
  shape : List Nat
  chosenInit : Option String
  regularizer : Option String
deriving DecidableEq, Repr

/-- A bias variable as created by
`tf.get_variable('biases', [out_count], initializer=tf.constant_initializer(0.01))`. -/
structure BiasVar where
  shape : List Nat
  const_init : ℚ
deriving DecidableEq, Repr

/-- Which normalization `fc_layer` applies. -/
inductive NormKind where
  | batch
  | layer
deriving DecidableEq, Repr

/-- The operations `fc_layer` applies after the matmul, when it returns. -/
structure AppliedOps where
  norm_applied : Option NormKind
  activation_applied : Option String
  dropout_applied : Option ℚ
deriving DecidableEq, Repr

/-- A run of `fc_layer`: the variables it created (none when the caller
supplied them) and its outcome — the applied operations, or the exception. -/
structure FCLayerRun where
  created_weights : Option WeightsVar
  created_biases : Option BiasVar
  outcome : Except String AppliedOps
deriving Repr

/-- The function `fc_layer`.  `tf_nn` is the framework's activation
namespace, modelled as attribute membership (`getattr(tf.nn, activation)`
raises AttributeError exactly when it is false).  Weight creation:
an explicit initializer takes precedence; otherwise `he_uniform` for
`relu`, `glorot_uniform` for `sigmoid`/`tanh`, otherwise the framework
default.  Bias creation: shape `[out_count]`, constant initializer 0.01.
The tensor arithmetic itself (matmul, the normalization and dropout
primitives) is framework-owned and recorded only as applied operations.
`is_training` only conditions runtime behaviour of those primitives. -/
def fc_layer (tf_nn : String → Bool) (in_count out_count : Nat)
    (activation : Option String) (norm : Option String) (is_training : Bool)
    (weights : Option WeightsVar) (biases : Option BiasVar)
    (dropout : Bool) (dropout_rate : Option ℚ)
    (initializer : Option String) (regularizer : Option String) : FCLayerRun :=
  let _ := is_training
  let created_w : Option WeightsVar :=
    match weights with
    | some _ => none
    | none =>
      match initializer with
      | some ini =>
        some { shape := [in_count, out_count], chosenInit := some ini,
               regularizer := regularizer }
      | none =>
        let ini : Option String :=
          if activation = some "relu" then some "he_uniform"
          else if activation = some "sigmoid" ∨ activation = some "tanh" then
            some "glorot_uniform"
          else none
        some { shape := [in_count, out_count], chosenInit := ini,
               regularizer := regularizer }
  let created_b : Option BiasVar :=
    match biases with
    | some _ => none
    | none => some { shape := [out_count], const_init := (1 : ℚ) / 100 }
  let norm_app : Option NormKind :=
    match norm with
    | none => none
    | some s =>
      if s = "batch" then some NormKind.batch
      else if s = "layer" then some NormKind.layer
      else none
  let act_res : Except String (Option String) :=
    match activation with
    | none => Except.ok none
    | some s =>
      if s = "" then Except.ok none
      else if tf_nn s then Except.ok (some s)
      else Except.error
        ("AttributeError: module tensorflow.nn has no attribute " ++ s)
  let drop : Option ℚ := if dropout then dropout_rate else none
  { created_weights := created_w, created_biases := created_b,
    outcome :=
      match act_res with
      | Except.error e => Except.error e
      | Except.ok a =>
        Except.ok
          { norm_applied := norm_app, activation_applied := a,
            dropout_applied := drop } }

/-! Helper lemmas about dictionary operations and the default fill. -/

theorem lookup_setItem_self (c : LayerConfig) (k : String) (v : Value) :
    (c.setItem k v).lookup k = some v := by
  induction c with
  | nil => simp [LayerConfig.setItem, LayerConfig.lookup]
  | cons p rest ih =>
    by_cases h : p.1 = k
    · simp [LayerConfig.setItem, h, LayerConfig.lookup]
    · simp [LayerConfig.setItem, h, LayerConfig.lookup, ih]

theorem lookup_setItem_ne {k k' : String} (c : LayerConfig) (v : Value)
    (h : k' ≠ k) : (c.setItem k v).lookup k' = c.lookup k' := by
  have h' : ¬ (k = k') := fun hh => h hh.symm
  induction c with
  | nil => simp [LayerConfig.setItem, LayerConfig.lookup, h']
  | cons p rest ih =>
    by_cases hp : p.1 = k
    · subst hp
      simp [LayerConfig.setItem, LayerConfig.lookup, h']
    · simp [LayerConfig.setItem, hp, LayerConfig.lookup, ih]

theorem fillDefault_of_hasKey {c : LayerConfig} {k : String} (v : Value)
    (h : c.hasKey k = true) : fillDefault c k v = c := by
  simp [fillDefault, h]

theorem hasKey_fillDefault_self (c : LayerConfig) (k : String) (v : Value) :
    (fillDefault c k v).hasKey k = true := by
  by_cases h : c.hasKey k = true
  · simp [fillDefault, h]
  · have h' : c.hasKey k = false := by simpa using h
    unfold fillDefault
    rw [h']
    simp only [Bool.false_eq_true, if_false]
    unfold LayerConfig.hasKey
    rw [lookup_setItem_self]
    rfl

theorem hasKey_fillDefault_mono {c : LayerConfig} {k k' : String} {v : Value}
    (h : c.hasKey k = true) : (fillDefault c k' v).hasKey k = true := by
  by_cases hk : c.hasKey k' = true
  · simp [fillDefault, hk, h]
  · have hk' : c.hasKey k' = false := by simpa using hk
    by_cases hkk : k = k'
    · subst hkk
      rw [h] at hk'
      cases hk'
    · unfold fillDefault
      rw [hk']
      simp only [Bool.false_eq_true, if_false]
      unfold LayerConfig.hasKey at h ⊢
      rw [lookup_setItem_ne c v hkk]
      exact h

theorem lookup_fillDefault_of_hasKey {c : LayerConfig} {k k' : String}
    {v : Value} (h : c.hasKey k = true) :
    (fillDefault c k' v).lookup k = c.lookup k := by
  by_cases hk : c.hasKey k' = true
  · simp [fillDefault, hk]
  · have hk' : c.hasKey k' = false := by simpa using hk
    by_cases hkk : k = k'
    · subst hkk
      rw [h] at hk'
      cases hk'
    · unfold fillDefault
      rw [hk']
      simp only [Bool.false_eq_true, if_false]
      exact lookup_setItem_ne c v hkk

theorem lookup_fillDefault_ne {k k' : String} (c : LayerConfig) (v : Value)
    (h : k ≠ k') : (fillDefault c k' v).lookup k = c.lookup k := by
  by_cases hk : c.hasKey k' = true
  · simp [fillDefault, hk]
  · have hk' : c.hasKey k' = false := by simpa using hk
    unfold fillDefault
    rw [hk']
    simp only [Bool.false_eq_true, if_false]
    exact lookup_setItem_ne c v h

theorem lookup_fillDefault_self (c : LayerConfig) (k : String) (v : Value) :
    (fillDefault c k v).lookup k = some ((c.lookup k).getD v) := by
  by_cases h : c.hasKey k = true
  · rw [fillDefault_of_hasKey v h]
    unfold LayerConfig.hasKey at h
    cases hx : c.lookup k with
    | none => rw [hx] at h; simp at h
    | some w => simp
  · have h' : c.hasKey k = false := by simpa using h
    unfold fillDefault
    rw [h']
    simp only [Bool.false_eq_true, if_false]
    rw [lookup_setItem_self]
    unfold LayerConfig.hasKey at h'
    cases hx : c.lookup k with
    | none => simp
    | some w => rw [hx] at h'; simp at h'

/-! Per-key facts about the default fill of `FCStack.__init__`. -/

theorem lookup_fillLayer_fc_size (d : StackDefaults) (c : LayerConfig) :
    (fillLayer d c).lookup "fc_size"
      = some ((c.lookup "fc_size").getD (Value.vNat d.default_fc_size)) := by
  simp only [fillLayer]
  rw [lookup_fillDefault_ne, lookup_fillDefault_ne, lookup_fillDefault_ne,
    lookup_fillDefault_ne, lookup_fillDefault_ne, lookup_fillDefault_self]
  all_goals decide

theorem lookup_fillLayer_activation (d : StackDefaults) (c : LayerConfig) :
    (fillLayer d c).lookup "activation"
      = some ((c.lookup "activation").getD (Value.vStr d.default_activation)) := by
  simp only [fillLayer]
  rw [lookup_fillDefault_ne, lookup_fillDefault_ne, lookup_fillDefault_ne,
    lookup_fillDefault_ne, lookup_fillDefault_self, lookup_fillDefault_ne]
  all_goals decide

theorem lookup_fillLayer_norm (d : StackDefaults) (c : LayerConfig) :
    (fillLayer d c).lookup "norm"
      = some ((c.lookup "norm").getD (optValue d.default_norm)) := by
  simp only [fillLayer]
  rw [lookup_fillDefault_ne, lookup_fillDefault_ne, lookup_fillDefault_ne,
    lookup_fillDefault_self, lookup_fillDefault_ne, lookup_fillDefault_ne]
  all_goals decide

theorem lookup_fillLayer_dropout_rate (d : StackDefaults) (c : LayerConfig) :
    (fillLayer d c).lookup "dropout_rate"
      = some ((c.lookup "dropout_rate").getD (Value.vRat d.default_dropout_rate)) := by
  simp only [fillLayer]
  rw [lookup_fillDefault_ne, lookup_fillDefault_ne, lookup_fillDefault_self,
    lookup_fillDefault_ne, lookup_fillDefault_ne, lookup_fillDefault_ne]
  all_goals decide

theorem lookup_fillLayer_weights_init (d : StackDefaults) (c : LayerConfig) :
    (fillLayer d c).lookup "weights_initializer"
      = some ((c.lookup "weights_initializer").getD
          (Value.vStr d.default_weights_initializer)) := by
  simp only [fillLayer]
  rw [lookup_fillDefault_ne, lookup_fillDefault_self, lookup_fillDefault_ne,
    lookup_fillDefault_ne, lookup_fillDefault_ne, lookup_fillDefault_ne]
  all_goals decide

theorem lookup_fillLayer_spaced_reg (d : StackDefaults) (c : LayerConfig) :
    (fillLayer d c).lookup "weights_regularizer "
      = some ((c.lookup "weights_regularizer ").getD
          (optValue d.default_weights_regularizer)) := by
  simp only [fillLayer]
  rw [lookup_fillDefault_self, lookup_fillDefault_ne, lookup_fillDefault_ne,
    lookup_fillDefault_ne, lookup_fillDefault_ne, lookup_fillDefault_ne]
  all_goals decide

theorem lookup_fillLayer_other (d : StackDefaults) (c : LayerConfig)
    (k : String) (n1 : k ≠ "fc_size") (n2 : k ≠ "activation")
    (n3 : k ≠ "norm") (n4 : k ≠ "dropout_rate")
    (n5 : k ≠ "weights_initializer") (n6 : k ≠ "weights_regularizer ") :
    (fillLayer d c).lookup k = c.lookup k := by
  simp only [fillLayer]
  rw [lookup_fillDefault_ne _ _ n6, lookup_fillDefault_ne _ _ n5,
    lookup_fillDefault_ne _ _ n4, lookup_fillDefault_ne _ _ n3,
    lookup_fillDefault_ne _ _ n2, lookup_fillDefault_ne _ _ n1]

theorem hasKey_fillLayer_fc_size (d : StackDefaults) (c : LayerConfig) :
    (fillLayer d c).hasKey "fc_size" = true := by
  unfold LayerConfig.hasKey
  rw [lookup_fillLayer_fc_size]
  rfl

theorem hasKey_fillLayer_activation (d : StackDefaults) (c : LayerConfig) :
    (fillLayer d c).hasKey "activation" = true := by
  unfold LayerConfig.hasKey
  rw [lookup_fillLayer_activation]
  rfl

theorem hasKey_fillLayer_norm (d : StackDefaults) (c : LayerConfig) :
    (fillLayer d c).hasKey "norm" = true := by
  unfold LayerConfig.hasKey
  rw [lookup_fillLayer_norm]
  rfl

theorem hasKey_fillLayer_dropout_rate (d : StackDefaults) (c : LayerConfig) :
    (fillLayer d c).hasKey "dropout_rate" = true := by
  unfold LayerConfig.hasKey
  rw [lookup_fillLayer_dropout_rate]
  rfl

theorem hasKey_fillLayer_weights_init (d : StackDefaults) (c : LayerConfig) :
    (fillLayer d c).hasKey "weights_initializer" = true := by
  unfold LayerConfig.hasKey
  rw [lookup_fillLayer_weights_init]
  rfl

theorem hasKey_fillLayer_spaced_reg (d : StackDefaults) (c : LayerConfig) :
    (fillLayer d c).hasKey "weights_regularizer " = true := by
  unfold LayerConfig.hasKey
  rw [lookup_fillLayer_spaced_reg]
  rfl

theorem fillLayer_of_complete (d : StackDefaults) (c : LayerConfig)
    (h1 : c.hasKey "fc_size" = true) (h2 : c.hasKey "activation" = true)
    (h3 : c.hasKey "norm" = true) (h4 : c.hasKey "dropout_rate" = true)
    (h5 : c.hasKey "weights_initializer" = true)
    (h6 : c.hasKey "weights_regularizer " = true) :
    fillLayer d c = c := by
  simp only [fillLayer]
  rw [fillDefault_of_hasKey _ h1, fillDefault_of_hasKey _ h2,
    fillDefault_of_hasKey _ h3, fillDefault_of_hasKey _ h4,
    fillDefault_of_hasKey _ h5, fillDefault_of_hasKey _ h6]

theorem fillLayer_idem (d : StackDefaults) (c : LayerConfig) :
    fillLayer d (fillLayer d c) = fillLayer d c :=
  fillLayer_of_complete d (fillLayer d c)
    (hasKey_fillLayer_fc_size d c) (hasKey_fillLayer_activation d c)
    (hasKey_fillLayer_norm d c) (hasKey_fillLayer_dropout_rate d c)
    (hasKey_fillLayer_weights_init d c) (hasKey_fillLayer_spaced_reg d c)

theorem lookup_fillLayer_of_hasKey (d : StackDefaults) (c : LayerConfig)
    (k : String) (h : c.hasKey k = true) :
    (fillLayer d c).lookup k = c.lookup k := by
  simp only [fillLayer]
  rw [lookup_fillDefault_of_hasKey, lookup_fillDefault_of_hasKey,
    lookup_fillDefault_of_hasKey, lookup_fillDefault_of_hasKey,
    lookup_fillDefault_of_hasKey, lookup_fillDefault_of_hasKey]
  all_goals (repeat (first | exact h | apply hasKey_fillDefault_mono))

/-- The units appended for one layer, as a function of the values read. -/
def layerUnits (fcSize wInit wReg normV actV dropV : Value) (dropRate : ℚ) :
    List FCUnit :=
  [FCUnit.Dense fcSize wInit wReg]
    ++ (if Value.truthy normV then
          (if normV = Value.vStr "batch" then [FCUnit.BatchNormalization] else [])
            ++ (if normV = Value.vStr "layer" then [FCUnit.LayerNormalization] else [])
        else [])
    ++ [FCUnit.Activation actV]
    ++ (if 0 < dropRate then [FCUnit.Dropout dropV] else [])

theorem buildLayerGroup_ok (c : LayerConfig) (g : List FCUnit)
    (hok : buildLayerGroup c = Except.ok g) :
    ∃ fcSize wInit wReg normV actV dropV dropRate,
      c.lookup "fc_size" = some fcSize ∧
      c.lookup "weights_initializer" = some wInit ∧
      c.lookup "weights_regularizer" = some wReg ∧
      c.lookup "norm" = some normV ∧
      c.lookup "activation" = some actV ∧
      c.lookup "dropout_rate" = some dropV ∧
      Value.asRat dropV = some dropRate ∧
      g = layerUnits fcSize wInit wReg normV actV dropV dropRate := by
  cases h1 : c.lookup "fc_size" with
  | none => simp [buildLayerGroup, getItem, h1] at hok
  | some fcSize =>
    cases h2 : c.lookup "weights_initializer" with
    | none => simp [buildLayerGroup, getItem, h1, h2] at hok
    | some wInit =>
      cases h3 : c.lookup "weights_regularizer" with
      | none => simp [buildLayerGroup, getItem, h1, h2, h3] at hok
      | some wReg =>
        cases h4 : c.lookup "norm" with
        | none => simp [buildLayerGroup, getItem, h1, h2, h3, h4] at hok
        | some normV =>
          cases h5 : c.lookup "activation" with
          | none => simp [buildLayerGroup, getItem, h1, h2, h3, h4, h5] at hok
          | some actV =>
            cases h6 : c.lookup "dropout_rate" with
            | none => simp [buildLayerGroup, getItem, h1, h2, h3, h4, h5, h6] at hok
            | some dropV =>
              cases h7 : Value.asRat dropV with
              | none =>
                simp [buildLayerGroup, getItem, h1, h2, h3, h4, h5, h6, h7] at hok
              | some dropRate =>
                refine ⟨fcSize, wInit, wReg, normV, actV, dropV, dropRate,
                  rfl, rfl, rfl, rfl, rfl, rfl, h7, ?_⟩
                simp [buildLayerGroup, getItem, h1, h2, h3, h4, h5, h6, h7,
                  layerUnits] at hok ⊢
                exact hok.symm

theorem buildStack_ok (cs : List LayerConfig) (st : List FCUnit)
    (h : buildStack cs = Except.ok st) :
    ∃ gs : List (List FCUnit),
      List.Forall₂ (fun c g => buildLayerGroup c = Except.ok g) cs gs ∧
      st = gs.flatten := by
  induction cs generalizing st with
  | nil =>
    unfold buildStack at h
    cases h
    exact ⟨[], List.Forall₂.nil, rfl⟩
  | cons c rest ih =>
    unfold buildStack at h
    cases hg : buildLayerGroup c with
    | error e => rw [hg] at h; cases h
    | ok g =>
      rw [hg] at h
      cases hrest : buildStack rest with
      | error e => rw [hrest] at h; cases h
      | ok gs' =>
        rw [hrest] at h
        cases h
        obtain ⟨gs, hf, hj⟩ := ih gs' hrest
        exact ⟨g :: gs, List.Forall₂.cons hg hf, by simp [hj]⟩

theorem buildStack_error_after_front (cs₁ : List LayerConfig)
    (c : LayerConfig) (cs₂ : List LayerConfig) (e : String)
    (h1 : ∀ c' ∈ cs₁, ∃ g, buildLayerGroup c' = Except.ok g)
    (h2 : buildLayerGroup c = Except.error e) :
    buildStack (cs₁ ++ c :: cs₂) = Except.error e := by
  induction cs₁ with
  | nil => simp [buildStack, h2]
  | cons a rest ih =>
    obtain ⟨g, hg⟩ := h1 a (by simp)
    have hr := ih (fun c' hc' => h1 c' (by simp [hc']))
    simp only [List.cons_append]
    unfold buildStack
    rw [hg, hr]

/-- True exactly for the two normalization units. -/
def isNormUnit : FCUnit → Bool
  | FCUnit.BatchNormalization => true
  | FCUnit.LayerNormalization => true
  | _ => false

/-- True exactly for dropout units. -/
def isDropoutUnit : FCUnit → Bool
  | FCUnit.Dropout _ => true
  | _ => false

theorem layerUnits_shape (fs wi wr nv av dv : Value) (dr : ℚ) :
    ∃ nus dus,
      layerUnits fs wi wr nv av dv dr
        = [FCUnit.Dense fs wi wr] ++ nus ++ [FCUnit.Activation av] ++ dus
      ∧ (nus = [] ∨ nus = [FCUnit.BatchNormalization]
          ∨ nus = [FCUnit.LayerNormalization])
      ∧ (dus = [] ∨ dus = [FCUnit.Dropout dv]) := by
  refine ⟨_, _, rfl, ?_, ?_⟩
  · by_cases ht : Value.truthy nv = true
    · by_cases hb : nv = Value.vStr "batch"
      · subst hb
        simp [ht]
      · by_cases hl : nv = Value.vStr "layer"
        · subst hl
          simp [ht, hb]
        · simp [ht, hb, hl]
    · have ht' : Value.truthy nv = false := by simpa using ht
      simp [ht']
  · by_cases hdr : 0 < dr
    · simp [hdr]
    · simp [hdr]

theorem buildLayerGroup_fill_missing (d : StackDefaults) (c : LayerConfig)
    (h : c.hasKey "weights_regularizer" = false) :
    buildLayerGroup (fillLayer d c)
      = Except.error "KeyError: weights_regularizer" := by
  have h0 : c.lookup "weights_regularizer" = none := by
    unfold LayerConfig.hasKey at h
    simpa using h
  have hl : (fillLayer d c).lookup "weights_regularizer" = none := by
    rw [lookup_fillLayer_other d c "weights_regularizer" (by decide) (by decide)
      (by decide) (by decide) (by decide) (by decide)]
    exact h0
  have h1 := lookup_fillLayer_fc_size d c
  have h2 := lookup_fillLayer_weights_init d c
  simp [buildLayerGroup, getItem, h1, h2, hl]

/-! Claim theorems. -/

/-- C1: the claim says every missing recognized key — including
weights_regularizer — is present after construction, filled with its
stack-level default.  The code instead writes the default under the key
with a trailing space, so for an entry that lacked it the key
weights_regularizer is still absent after the fill, and default
construction FCStack() aborts with a KeyError rather than completing.
This theorem evaluates the code at the failing input (the default
construction, layers=None, num_layers=1). -/
theorem C1_default_fill_misses_weights_regularizer :
    (fillLayer defaultStackDefaults ([] : LayerConfig)).lookup
        "weights_regularizer" = none
    ∧ (fillLayer defaultStackDefaults ([] : LayerConfig)).lookup
        "weights_regularizer " = some Value.vNone
    ∧ fcStackInit none 1 defaultStackDefaults
        = Except.error "KeyError: weights_regularizer" :=
  ⟨rfl, rfl, rfl⟩

/-- C2: every configuration entry that does not contain the key
weights_regularizer — provided construction reaches it, i.e. every entry
before it builds its sub-layers successfully — makes FCStack construction
raise KeyError while building the Dense sub-layer, because the default
fill wrote the trailing-space key while Dense construction reads the key
without the space; in particular construction with entries synthesized
from num_layers (layers=None) always raises this KeyError. -/
theorem C2_missing_regularizer_keyerror (d : StackDefaults)
    (ls1 ls2 : List LayerConfig) (c : LayerConfig) (n m : Nat)
    (hmiss : c.hasKey "weights_regularizer" = false)
    (hfront : ∀ c' ∈ ls1, ∃ g, buildLayerGroup (fillLayer d c') = Except.ok g)
    (hm : 0 < m) :
    fcStackInit (some (ls1 ++ c :: ls2)) n d
        = Except.error "KeyError: weights_regularizer"
    ∧ fcStackInit none m d = Except.error "KeyError: weights_regularizer" := by
  constructor
  · have hb : buildStack ((ls1 ++ c :: ls2).map (fillLayer d))
        = Except.error "KeyError: weights_regularizer" := by
      rw [List.map_append, List.map_cons]
      apply buildStack_error_after_front
      · intro c' hc'
        obtain ⟨a, ha, rfl⟩ := List.mem_map.mp hc'
        exact hfront a ha
      · exact buildLayerGroup_fill_missing d c hmiss
    simp only [fcStackInit]
    rw [hb]
  · cases m with
    | zero => exact absurd hm (by simp)
    | succ k =>
      have hb2 : buildStack ((List.replicate (k + 1) ([] : LayerConfig)).map
          (fillLayer d)) = Except.error "KeyError: weights_regularizer" := by
        rw [List.replicate_succ, List.map_cons]
        unfold buildStack
        rw [buildLayerGroup_fill_missing d [] rfl]
      simp only [fcStackInit]
      rw [hb2]

/-- C2 witness: a one-entry configuration list whose entry lacks
weights_regularizer, and the synthesized single-layer case. -/
theorem C2_missing_regularizer_keyerror_witness :
    fcStackInit (some ([] ++ ([] : LayerConfig) :: [])) 7 defaultStackDefaults
        = Except.error "KeyError: weights_regularizer"
    ∧ fcStackInit none 1 defaultStackDefaults
        = Except.error "KeyError: weights_regularizer" :=
  C2_missing_regularizer_keyerror defaultStackDefaults [] [] [] 7 1 rfl
    (by simp) (by decide)

/-- C7: the default fill of FCStack construction is idempotent, and it
never overwrites a key already present in a configuration entry. -/
theorem C7_fill_idempotent_and_preserving :
    (∀ (d : StackDefaults) (c : LayerConfig),
      fillLayer d (fillLayer d c) = fillLayer d c)
    ∧ (∀ (d : StackDefaults) (c : LayerConfig) (k : String),
        c.hasKey k = true → (fillLayer d c).lookup k = c.lookup k) :=
  ⟨fillLayer_idem, lookup_fillLayer_of_hasKey⟩

/-- C7 witness: idempotence and preservation at a concrete entry that
already carries a norm setting. -/
theorem C7_fill_idempotent_and_preserving_witness :
    fillLayer defaultStackDefaults
        (fillLayer defaultStackDefaults [("norm", Value.vStr "batch")])
      = fillLayer defaultStackDefaults [("norm", Value.vStr "batch")]
    ∧ LayerConfig.hasKey [("norm", Value.vStr "batch")] "norm" = true
    ∧ (fillLayer defaultStackDefaults
        [("norm", Value.vStr "batch")]).lookup "norm"
      = LayerConfig.lookup [("norm", Value.vStr "batch")] "norm" :=
  ⟨C7_fill_idempotent_and_preserving.1 defaultStackDefaults
      [("norm", Value.vStr "batch")],
    rfl,
    C7_fill_idempotent_and_preserving.2 defaultStackDefaults
      [("norm", Value.vStr "batch")] "norm" rfl⟩

/-- C3: within the units built for one configuration entry, a falsy or
unrecognized norm value yields no normalization unit, norm='batch' yields
exactly one batch-normalization unit (and no layer normalization), and
norm='layer' yields exactly one layer-normalization unit (and no batch
normalization). -/
theorem C3_norm_unit_selection (c : LayerConfig) (g : List FCUnit) (v : Value)
    (hok : buildLayerGroup c = Except.ok g)
    (hnorm : c.lookup "norm" = some v) :
    (v.truthy = false ∨ (v ≠ Value.vStr "batch" ∧ v ≠ Value.vStr "layer") →
      g.filter isNormUnit = [])
    ∧ (v = Value.vStr "batch" →
      g.filter isNormUnit = [FCUnit.BatchNormalization])
    ∧ (v = Value.vStr "layer" →
      g.filter isNormUnit = [FCUnit.LayerNormalization]) := by
  obtain ⟨fs, wi, wr, nv, av, dv, dr, e1, e2, e3, e4, e5, e6, e7, hg⟩ :=
    buildLayerGroup_ok c g hok
  rw [hnorm] at e4
  injection e4 with e4
  subst e4
  subst hg
  refine ⟨?_, ?_, ?_⟩
  · rintro (ht | ⟨hb, hl⟩)
    · by_cases hdr : 0 < dr <;>
        simp [layerUnits, isNormUnit, ht, hdr, List.filter_append]
    · by_cases hdr : 0 < dr <;>
        simp [layerUnits, isNormUnit, hb, hl, hdr, List.filter_append]
  · intro hb
    subst hb
    by_cases hdr : 0 < dr <;>
      simp [layerUnits, isNormUnit, hdr, List.filter_append, Value.truthy]
  · intro hl
    subst hl
    by_cases hdr : 0 < dr <;>
      simp [layerUnits, isNormUnit, hdr, List.filter_append, Value.truthy]

/-- C3 witness: an entry with norm='batch' (and the bug-avoiding explicit
weights_regularizer) yields exactly one batch-normalization unit. -/
theorem C3_norm_unit_selection_witness :
    List.filter isNormUnit
        [FCUnit.Dense (Value.vNat 256) (Value.vStr "glorot_uniform")
          Value.vNone,
        FCUnit.BatchNormalization, FCUnit.Activation (Value.vStr "relu")]
      = [FCUnit.BatchNormalization] :=
  (C3_norm_unit_selection
    (fillLayer defaultStackDefaults
      [("weights_regularizer", Value.vNone), ("norm", Value.vStr "batch")])
    _ (Value.vStr "batch") rfl rfl).2.1 rfl

/-- C4: within the units built for one configuration entry, a
(possibly defaulted) dropout rate equal to 0 yields no dropout unit,
while a positive rate yields exactly one dropout unit at that rate. -/
theorem C4_dropout_unit_selection (c : LayerConfig) (g : List FCUnit)
    (dv : Value) (q : ℚ)
    (hok : buildLayerGroup c = Except.ok g)
    (hdrop : c.lookup "dropout_rate" = some dv)
    (hq : dv.asRat = some q) :
    (q = 0 → g.filter isDropoutUnit = [])
    ∧ (0 < q → g.filter isDropoutUnit = [FCUnit.Dropout dv]) := by
  obtain ⟨fs, wi, wr, nv, av, dv', dr, e1, e2, e3, e4, e5, e6, e7, hg⟩ :=
    buildLayerGroup_ok c g hok
  rw [hdrop] at e6
  injection e6 with e6
  subst e6
  rw [hq] at e7
  injection e7 with e7
  subst e7
  subst hg
  constructor
  · intro h0
    subst h0
    simp [layerUnits, isDropoutUnit, List.filter_append,
      apply_ite (List.filter isDropoutUnit)]
  · intro hpos
    simp [layerUnits, isDropoutUnit, List.filter_append,
      apply_ite (List.filter isDropoutUnit), hpos]

/-- C4 witness: an entry with a positive dropout rate yields exactly one
dropout unit at that rate. -/
theorem C4_dropout_unit_selection_witness :
    List.filter isDropoutUnit
        [FCUnit.Dense (Value.vNat 256) (Value.vStr "glorot_uniform")
          Value.vNone,
        FCUnit.Activation (Value.vStr "relu"),
        FCUnit.Dropout (Value.vRat 1)]
      = [FCUnit.Dropout (Value.vRat 1)] :=
  (C4_dropout_unit_selection
    (fillLayer defaultStackDefaults
      [("weights_regularizer", Value.vNone),
        ("dropout_rate", Value.vRat 1)])
    _ (Value.vRat 1) 1 rfl rfl rfl).2 (by norm_num)

/-- C5: a successfully constructed stack is the concatenation, in
configuration order, of one contiguous unit group per configuration entry,
each group being: the dense transform, then an optional single
normalization unit, then the activation unit, then an optional single
dropout unit. -/
theorem C5_stack_structure (ls : List LayerConfig) (n : Nat)
    (d : StackDefaults) (filled : List LayerConfig) (st : List FCUnit)
    (h : fcStackInit (some ls) n d = Except.ok (filled, st)) :
    ∃ gs : List (List FCUnit),
      gs.length = ls.length ∧ st = gs.flatten ∧
      ∀ i, (hi : i < ls.length) → (hi' : i < gs.length) →
        buildLayerGroup (fillLayer d ls[i]) = Except.ok gs[i]
        ∧ ∃ den nus act dus,
            gs[i] = [den] ++ nus ++ [act] ++ dus
            ∧ (∃ fs wi wr, den = FCUnit.Dense fs wi wr)
            ∧ (nus = [] ∨ nus = [FCUnit.BatchNormalization]
                ∨ nus = [FCUnit.LayerNormalization])
            ∧ (∃ av, act = FCUnit.Activation av)
            ∧ (dus = [] ∨ ∃ dv, dus = [FCUnit.Dropout dv]) := by
  have hmain : buildStack (ls.map (fillLayer d)) = Except.ok st := by
    simp only [fcStackInit] at h
    cases hb : buildStack (ls.map (fillLayer d)) with
    | error e => rw [hb] at h; cases h
    | ok st' =>
      rw [hb] at h
      simp only [Except.ok.injEq, Prod.mk.injEq] at h
      rw [h.2]
  obtain ⟨gs, hf, hflat⟩ := buildStack_ok _ _ hmain
  have hlen := List.Forall₂.length_eq hf
  rw [List.length_map] at hlen
  refine ⟨gs, hlen.symm, hflat, ?_⟩
  intro i hi hi'
  have hmem : buildLayerGroup ((ls.map (fillLayer d)).get
      ⟨i, by simpa using hi⟩) = Except.ok (gs.get ⟨i, hi'⟩) :=
    (List.forall₂_iff_get.mp hf).2 i (by simpa using hi) hi'
  simp only [List.get_eq_getElem, List.getElem_map] at hmem
  refine ⟨hmem, ?_⟩
  obtain ⟨fs, wi, wr, nv, av, dv, dr, e1, e2, e3, e4, e5, e6, e7, hg⟩ :=
    buildLayerGroup_ok _ _ hmem
  obtain ⟨nus, dus, hshape, hnus, hdus⟩ := layerUnits_shape fs wi wr nv av dv dr
  refine ⟨FCUnit.Dense fs wi wr, nus, FCUnit.Activation av, dus, ?_,
    ⟨fs, wi, wr, rfl⟩, hnus, ⟨av, rfl⟩, ?_⟩
  · rw [hg, hshape]
  · cases hdus with
    | inl h0 => exact Or.inl h0
    | inr h1 => exact Or.inr ⟨dv, h1⟩

/-- C5 witness: a two-entry configuration list (entries carry the
weights_regularizer key explicitly so construction succeeds). -/
theorem C5_stack_structure_witness :
    ∃ gs : List (List FCUnit),
      gs.length
          = ([[("weights_regularizer", Value.vNone)],
              [("weights_regularizer", Value.vNone),
                ("norm", Value.vStr "layer")]] : List LayerConfig).length
      ∧ [FCUnit.Dense (Value.vNat 256) (Value.vStr "glorot_uniform")
            Value.vNone,
          FCUnit.Activation (Value.vStr "relu"),
          FCUnit.Dense (Value.vNat 256) (Value.vStr "glorot_uniform")
            Value.vNone,
          FCUnit.LayerNormalization,
          FCUnit.Activation (Value.vStr "relu")] = gs.flatten
      ∧ ∀ i, (hi : i < ([[("weights_regularizer", Value.vNone)],
              [("weights_regularizer", Value.vNone),
                ("norm", Value.vStr "layer")]] : List LayerConfig).length) →
          (hi' : i < gs.length) →
          buildLayerGroup (fillLayer defaultStackDefaults
              ([[("weights_regularizer", Value.vNone)],
                [("weights_regularizer", Value.vNone),
                  ("norm", Value.vStr "layer")]] : List LayerConfig)[i])
            = Except.ok gs[i]
          ∧ ∃ den nus act dus,
              gs[i] = [den] ++ nus ++ [act] ++ dus
              ∧ (∃ fs wi wr, den = FCUnit.Dense fs wi wr)
              ∧ (nus = [] ∨ nus = [FCUnit.BatchNormalization]
                  ∨ nus = [FCUnit.LayerNormalization])
              ∧ (∃ av, act = FCUnit.Activation av)
              ∧ (dus = [] ∨ ∃ dv, dus = [FCUnit.Dropout dv]) :=
  C5_stack_structure
    [[("weights_regularizer", Value.vNone)],
      [("weights_regularizer", Value.vNone), ("norm", Value.vStr "layer")]]
    2 defaultStackDefaults _ _ rfl

/-- C6: compute_output_shape delegates to the last unit of the flat
sequence when the stack is non-empty, and is the identity on the input
shape when the stack is empty. -/
theorem C6_output_shape {α : Type} (stack : List FCUnit)
    (unitShape : FCUnit → α → α) (input_shape : α) :
    (stack = [] →
      compute_output_shape stack unitShape input_shape = input_shape)
    ∧ (∀ front u, stack = front ++ [u] →
      compute_output_shape stack unitShape input_shape
        = unitShape u input_shape) := by
  constructor
  · intro h
    subst h
    rfl
  · intro front u h
    subst h
    unfold compute_output_shape
    rw [List.getLast?_concat]

/-- C6 witness: the empty stack returns the input shape unchanged, and a
singleton stack returns whatever its last unit computes. -/
theorem C6_output_shape_witness :
    compute_output_shape ([] : List FCUnit)
        (fun _ _ => ([7] : List Nat)) [2, 3] = [2, 3]
    ∧ compute_output_shape [FCUnit.BatchNormalization]
        (fun _ _ => ([7] : List Nat)) [2, 3] = [7] :=
  ⟨(C6_output_shape [] (fun _ _ => ([7] : List Nat)) [2, 3]).1 rfl,
    (C6_output_shape [FCUnit.BatchNormalization]
      (fun _ _ => ([7] : List Nat)) [2, 3]).2 [] FCUnit.BatchNormalization rfl⟩

/-- C8: when no weights are supplied, fc_layer creates a weight variable of
shape [in_count, out_count] with the regularizer attached, under the
explicitly given initializer when there is one, otherwise he_uniform for
relu, glorot_uniform for sigmoid or tanh, and the framework built-in
default (none) for any other activation. -/
theorem C8_weights_creation (tf_nn : String → Bool) (in_count out_count : Nat)
    (activation norm : Option String) (is_training : Bool)
    (biases : Option BiasVar) (dropout : Bool) (dropout_rate : Option ℚ)
    (initializer regularizer : Option String) :
    (∀ ini, initializer = some ini →
      (fc_layer tf_nn in_count out_count activation norm is_training none
          biases dropout dropout_rate initializer regularizer).created_weights
        = some ⟨[in_count, out_count], some ini, regularizer⟩)
    ∧ (initializer = none → activation = some "relu" →
      (fc_layer tf_nn in_count out_count activation norm is_training none
          biases dropout dropout_rate initializer regularizer).created_weights
        = some ⟨[in_count, out_count], some "he_uniform", regularizer⟩)
    ∧ (initializer = none →
        (activation = some "sigmoid" ∨ activation = some "tanh") →
      (fc_layer tf_nn in_count out_count activation norm is_training none
          biases dropout dropout_rate initializer regularizer).created_weights
        = some ⟨[in_count, out_count], some "glorot_uniform", regularizer⟩)
    ∧ (initializer = none → activation ≠ some "relu" →
        activation ≠ some "sigmoid" → activation ≠ some "tanh" →
      (fc_layer tf_nn in_count out_count activation norm is_training none
          biases dropout dropout_rate initializer regularizer).created_weights
        = some ⟨[in_count, out_count], none, regularizer⟩) := by
  refine ⟨?_, ?_, ?_, ?_⟩
  · rintro ini rfl
    rfl
  · rintro rfl rfl
    rfl
  · rintro rfl (rfl | rfl) <;> rfl
  · rintro rfl h1 h2 h3
    simp [fc_layer, h1, h2, h3]

/-- C8 witness: an explicitly supplied initializer wins over the
activation-based default. -/
theorem C8_weights_creation_witness :
    ((some "zeros" : Option String) = some "zeros")
    ∧ (fc_layer (fun _ => true) 4 5 (some "relu") none true none none false
          none (some "zeros") (some "l2")).created_weights
        = some ⟨[4, 5], some "zeros", some "l2"⟩ :=
  ⟨rfl,
    (C8_weights_creation (fun _ => true) 4 5 (some "relu") none true none
      false none (some "zeros") (some "l2")).1 "zeros" rfl⟩

/-- C9: when no biases are supplied, fc_layer creates a bias variable of
shape [out_count] initialized to the constant 0.01, which is not zero. -/
theorem C9_bias_creation (tf_nn : String → Bool) (in_count out_count : Nat)
    (activation norm : Option String) (is_training : Bool)
    (weights : Option WeightsVar) (dropout : Bool) (dropout_rate : Option ℚ)
    (initializer regularizer : Option String) :
    (fc_layer tf_nn in_count out_count activation norm is_training weights
        none dropout dropout_rate initializer regularizer).created_biases
      = some ⟨[out_count], 1 / 100⟩
    ∧ ((1 : ℚ) / 100 ≠ 0) := by
  constructor
  · rfl
  · norm_num

/-- C10: fc_layer resolves the activation by dynamic name lookup against
the framework's activation namespace; a non-empty name absent from the
namespace makes the call fail with the AttributeError, while a none or
empty activation applies no activation (and the lookup cannot fail). -/
theorem C10_activation_resolution (tf_nn : String → Bool)
    (in_count out_count : Nat) (norm : Option String) (is_training : Bool)
    (weights : Option WeightsVar) (biases : Option BiasVar) (dropout : Bool)
    (dropout_rate : Option ℚ) (initializer regularizer : Option String)
    (s : String) (a : Option String) :
    (s ≠ "" → tf_nn s = false →
      (fc_layer tf_nn in_count out_count (some s) norm is_training weights
          biases dropout dropout_rate initializer regularizer).outcome
        = Except.error
            ("AttributeError: module tensorflow.nn has no attribute " ++ s))
    ∧ (a = none ∨ a = some "" →
      ∀ e, (fc_layer tf_nn in_count out_count a norm is_training weights
          biases dropout dropout_rate initializer regularizer).outcome
        ≠ Except.error e)
    ∧ (a = none ∨ a = some "" →
      ∀ ops, (fc_layer tf_nn in_count out_count a norm is_training weights
          biases dropout dropout_rate initializer regularizer).outcome
        = Except.ok ops → ops.activation_applied = none) := by
  refine ⟨?_, ?_, ?_⟩
  · intro hs hf
    simp [fc_layer, hs, hf]
  · rintro (rfl | rfl) e <;> simp [fc_layer]
  · rintro (rfl | rfl) ops hops
    · revert hops
      simp only [fc_layer]
      intro hops
      injection hops with h
      rw [← h]
    · revert hops
      simp only [fc_layer]
      intro hops
      injection hops with h
      rw [← h]

/-- C10 witness: the name foo is not in the (empty) activation namespace
and raises; the empty-string activation applies nothing and cannot raise. -/
theorem C10_activation_resolution_witness :
    (fc_layer (fun _ => false) 2 3 (some "foo") none true none none false
        none none none).outcome
      = Except.error
          ("AttributeError: module tensorflow.nn has no attribute " ++ "foo")
    ∧ (fc_layer (fun _ => false) 2 3 (some "") none true none none false
        none none none).outcome ≠ Except.error "boom"
    ∧ AppliedOps.activation_applied ⟨none, none, none⟩ = none := by
  have h := C10_activation_resolution (fun _ => false) 2 3 none true none none
    false none none none "foo" (some "")
  exact ⟨h.1 (by decide) rfl, h.2.1 (Or.inr rfl) "boom",
    h.2.2 (Or.inr rfl) ⟨none, none, none⟩ rfl⟩
